import Mathlib

/-!
Verification of the per-request AI response lifecycle tracker of
`poe-canvas-utils` (`src/hooks/usePoeAi.ts`) against its natural-language
specification.

The embedding is shallow:
* JavaScript `Map` state (`activeRequests`) becomes an association list
  threaded explicitly through each operation.
* The consumer callback is a pure function `RequestState → Except String Unit`;
  `Except.error` models the callback throwing, and every invocation site
  records the caught message instead of propagating it (the functions below
  are total, mirroring the `try`/`catch` and `tryCatchSync` wrappers in the
  source).
* Statuses travel as `String`, not a closed inductive type, because the
  router explicitly defends against out-of-contract status values arriving
  from the external channel at runtime.
* Asynchronous boundaries (promise continuations, the simulation timer) are
  embedded as separate step functions on the registry; the synchronous body
  of `sendToAI` returns the work it scheduled as a `PendingWork` value.
* `Math.random()` draws and the normalized error chance are rationals;
  `Date.now()` is a natural-number parameter.
-/

namespace PoeCanvasUtils

/-- Embeds `MessageAttachment` from `src/types/Poe.ts`. -/
structure MessageAttachment where
  attachmentId : String
  mimeType : String
  url : String
  isInline : Bool
  name : String
  deriving DecidableEq, Repr

/-- Embeds `Message` from `src/types/Poe.ts`.  `statusText` and `attachments`
are optional fields of the TypeScript type; `status` is a `String` because the
router defends against values outside the declared union. -/
structure Message where
  messageId : String
  senderId : String
  content : String
  contentType : String
  status : String
  statusText : Option String
  attachments : Option (List MessageAttachment)
  deriving DecidableEq, Repr

/-- Embeds `SendUserMessageResult` from `src/types/Poe.ts`.  `responses` is an
`Option` because the router guards with `result.responses ?? …` and
`result.responses?.map`, defending against a channel that omits the field. -/
structure SendUserMessageResult where
  status : String
  responses : Option (List Message)
  deriving DecidableEq, Repr

/-- Embeds `RequestState` from `src/hooks/usePoeAi.ts`. -/
structure RequestState where
  requestId : String
  generating : Bool
  error : Option String
  responses : Option (List Message)
  status : String
  deriving DecidableEq, Repr

/-- One entry of the `activeRequests` map: `{state, callback}`.  The callback
returning `Except.error e` models the consumer callback throwing `e`. -/
structure RequestEntry where
  state : RequestState
  callback : RequestState → Except String Unit

/-- The `activeRequests` JavaScript `Map`, embedded as an association list in
insertion order. -/
def Registry : Type := List (String × RequestEntry)

/-- `Map.get`: first entry with the given key. -/
def Registry.get : Registry → String → Option RequestEntry
  | [], _ => none
  | p :: rest, k => if p.1 = k then some p.2 else Registry.get rest k

/-- `Map.set`: replace in place if the key is present, otherwise append. -/
def Registry.set : Registry → String → RequestEntry → Registry
  | [], k, e => [(k, e)]
  | p :: rest, k, e => if p.1 = k then (k, e) :: rest else p :: Registry.set rest k e

/-- `Map.delete`: drop the entry with the given key. -/
def Registry.delete : Registry → String → Registry
  | [], _ => []
  | p :: rest, k => if p.1 = k then Registry.delete rest k else p :: Registry.delete rest k

/-- `Map.has`. -/
def Registry.hasKey (reg : Registry) (k : String) : Bool :=
  (Registry.get reg k).isSome

/-- The callback-free view of the registry: each entry reduced to its stored
state.  Used to express that registry contents do not depend on what the
consumer callbacks do. -/
def Registry.stateView : Registry → List (String × RequestState)
  | [] => []
  | p :: rest => (p.1, p.2.state) :: Registry.stateView rest

/-- `set` on the callback-free view. -/
def sset : List (String × RequestState) → String → RequestState → List (String × RequestState)
  | [], k, st => [(k, st)]
  | p :: rest, k, st => if p.1 = k then (k, st) :: rest else p :: sset rest k st

/-- `delete` on the callback-free view. -/
def sdel : List (String × RequestState) → String → List (String × RequestState)
  | [], _ => []
  | p :: rest, k => if p.1 = k then sdel rest k else p :: sdel rest k

theorem Registry.get_set_self (reg : Registry) (k : String) (e : RequestEntry) :
    Registry.get (Registry.set reg k e) k = some e := by
  induction reg with
  | nil => simp [Registry.set, Registry.get]
  | cons p rest ih =>
      by_cases h : p.1 = k
      · simp [Registry.set, Registry.get, h]
      · simp [Registry.set, Registry.get, h, ih]

theorem Registry.get_set_ne (reg : Registry) (k k' : String) (e : RequestEntry)
    (h : k' ≠ k) : Registry.get (Registry.set reg k e) k' = Registry.get reg k' := by
  have hk : ¬(k = k') := fun hh => h hh.symm
  induction reg with
  | nil => simp [Registry.set, Registry.get, hk]
  | cons p rest ih =>
      by_cases hp : p.1 = k
      · have hpk : ¬(p.1 = k') := by rw [hp]; exact hk
        simp [Registry.set, Registry.get, hp, hk, hpk]
      · simp [Registry.set, Registry.get, hp, ih]

theorem Registry.get_delete_self (reg : Registry) (k : String) :
    Registry.get (Registry.delete reg k) k = none := by
  induction reg with
  | nil => simp [Registry.delete, Registry.get]
  | cons p rest ih =>
      by_cases h : p.1 = k
      · simp [Registry.delete, h, ih]
      · simp [Registry.delete, Registry.get, h, ih]

theorem Registry.get_delete_ne (reg : Registry) (k k' : String)
    (h : k' ≠ k) : Registry.get (Registry.delete reg k) k' = Registry.get reg k' := by
  induction reg with
  | nil => simp [Registry.delete]
  | cons p rest ih =>
      by_cases hp : p.1 = k
      · have hk : ¬(k = k') := fun hh => h hh.symm
        have hpk : ¬(p.1 = k') := by rw [hp]; exact hk
        simp [Registry.delete, Registry.get, hp, hk, hpk, ih]
      · simp [Registry.delete, Registry.get, hp, ih]

theorem Registry.delete_set_self (reg : Registry) (k : String) (e : RequestEntry) :
    Registry.delete (Registry.set reg k e) k = Registry.delete reg k := by
  induction reg with
  | nil => simp [Registry.set, Registry.delete]
  | cons p rest ih =>
      by_cases h : p.1 = k
      · simp [Registry.set, Registry.delete, h]
      · simp [Registry.set, Registry.delete, h, ih]

theorem Registry.stateView_set (reg : Registry) (k : String) (e : RequestEntry) :
    Registry.stateView (Registry.set reg k e) = sset (Registry.stateView reg) k e.state := by
  induction reg with
  | nil => simp [Registry.set, Registry.stateView, sset]
  | cons p rest ih =>
      by_cases h : p.1 = k
      · simp [Registry.set, Registry.stateView, sset, h]
      · simp [Registry.set, Registry.stateView, sset, h, ih]

theorem Registry.stateView_delete (reg : Registry) (k : String) :
    Registry.stateView (Registry.delete reg k) = sdel (Registry.stateView reg) k := by
  induction reg with
  | nil => simp [Registry.delete, Registry.stateView, sdel]
  | cons p rest ih =>
      by_cases h : p.1 = k
      · simp [Registry.delete, Registry.stateView, sdel, h, ih]
      · simp [Registry.delete, Registry.stateView, sdel, h, ih]

theorem sset_sset_same (l : List (String × RequestState)) (k : String) (a b : RequestState) :
    sset (sset l k a) k b = sset l k b := by
  induction l with
  | nil => simp [sset]
  | cons p rest ih =>
      by_cases h : p.1 = k
      · simp [sset, h]
      · simp [sset, h, ih]

theorem sdel_sset_same (l : List (String × RequestState)) (k : String) (st : RequestState) :
    sdel (sset l k st) k = sdel l k := by
  induction l with
  | nil => simp [sset, sdel]
  | cons p rest ih =>
      by_cases h : p.1 = k
      · simp [sset, sdel, h]
      · simp [sset, sdel, h, ih]

theorem sset_self_of_get (reg : Registry) (k : String) (e : RequestEntry)
    (h : Registry.get reg k = some e) :
    sset (Registry.stateView reg) k e.state = Registry.stateView reg := by
  induction reg with
  | nil => simp [Registry.get] at h
  | cons p rest ih =>
      by_cases hp : p.1 = k
      · simp [Registry.get, hp] at h
        simp [Registry.stateView, sset, hp, ← h]
      · simp [Registry.get, hp] at h
        simp [Registry.stateView, sset, hp, ih h]

/-- JavaScript `a || b` on a string `a`: the empty string is falsy. -/
def strFallback (s fallback : String) : String :=
  if s = "" then fallback else s

/-- JavaScript `a || b` on an optional string `a`: `undefined`, `null` and the
empty string all fall back. -/
def optStrFallback (s : Option String) (fallback : String) : String :=
  match s with
  | none => fallback
  | some t => strFallback t fallback

/-- JavaScript `a ?? b` on optional values (`null`/`undefined` fall back; an
empty list does not). -/
def nullish {α : Type} (a b : Option α) : Option α :=
  match a with
  | some x => some x
  | none => b

/-- Embeds `tryCatchSync` from `src/utils/tryCatch.ts`: the `[data, null]` /
`[null, error]` result pair. -/
def tryCatchSync {T : Type} (fn : Unit → Except String T) : Option T × Option String :=
  match fn () with
  | Except.ok d => (some d, none)
  | Except.error e => (none, some e)

/-- The list of caught (logged, not propagated) callback exceptions produced
by one guarded invocation, via `tryCatchSync` / `try … catch`. -/
def catchToList (r : Except String Unit) : List String :=
  ((tryCatchSync fun _ => r).2).toList

/-- Error message synthesis of `handlePoeResponse` (usePoeAi.ts lines
276-289): `result.responses?.map(…).filter(Boolean).join("\n") || fallback`.
Messages whose status is not `error` map to `null` and are filtered out;
the mapped strings are never empty, so `filter(Boolean)` keeps exactly the
error lines. -/
def computeErrorMsg (responses : Option (List Message)) : String :=
  let lines := (responses.getD []).filterMap fun msg =>
    if msg.status = "error" then
      some ("[" ++ strFallback msg.senderId "Bot" ++ " Error]: "
            ++ optStrFallback msg.statusText "Unknown error")
    else none
  strFallback (String.intercalate "\n" lines)
    "An unknown error occurred during response generation."

/-- The state-transition rule of `handlePoeResponse` (usePoeAi.ts lines
264-299): spread of the current state, status copied, `generating` iff
`incomplete`, responses nullish-coalesced onto the previous ones, error
cleared then recomputed for the `error` status, and unknown statuses coerced
to `error` with a diagnostic. -/
def routerNewState (currentState : RequestState) (result : SendUserMessageResult) :
    RequestState :=
  let base : RequestState :=
    { currentState with
      status := result.status
      generating := decide (result.status = "incomplete")
      responses := nullish result.responses currentState.responses
      error := none }
  if result.status = "error" then
    { base with error := some (computeErrorMsg result.responses) }
  else if result.status ≠ "incomplete" ∧ result.status ≠ "complete" then
    { base with
      status := "error"
      error := some ("Unknown status received from AI handler: " ++ result.status) }
  else base

/-- Output of one Response Router (or dispatch continuation) step: the new
registry, the consumer-callback invocations performed (keyed by the request id
whose stored callback was invoked, with the state it was handed), the caught
callback exceptions, and the diagnostic log lines for discarded events. -/
structure RouterOutput where
  registry : Registry
  calls : List (String × RequestState)
  caught : List String
  warnings : List String

/-- Embeds `handlePoeResponse` (usePoeAi.ts lines 244-317).  `context = none`
covers both a missing context and a context without a `requestId` field; the
source's `if (!requestId)` also treats the empty string as missing. -/
def handlePoeResponse (mounted : Bool) (reg : Registry) (result : SendUserMessageResult)
    (context : Option String) : RouterOutput :=
  match context with
  | none => ⟨reg, [], [], ["missing requestId in context"]⟩
  | some requestId =>
    if requestId = "" then ⟨reg, [], [], ["missing requestId in context"]⟩
    else
      match Registry.get reg requestId with
      | none => ⟨reg, [], [], ["unknown or completed request: " ++ requestId]⟩
      | some requestEntry =>
        if mounted = false then
          ⟨reg, [], [], ["component unmounted, discarding response: " ++ requestId]⟩
        else
          let newState := routerNewState requestEntry.state result
          let registryAfterSet :=
            Registry.set reg requestId ⟨newState, requestEntry.callback⟩
          let caught := catchToList (requestEntry.callback newState)
          let registryAfterCleanup :=
            if newState.status = "complete" ∨ newState.status = "error" then
              Registry.delete registryAfterSet requestId
            else registryAfterSet
          ⟨registryAfterCleanup, [(requestId, newState)], caught, []⟩

/-- Embeds `RequestOptions` from usePoeAi.ts (attachments reduced to opaque
file names). -/
structure RequestOptions where
  stream : Bool := false
  openChat : Bool := false
  simulatedResponseOverride : Option (List Message) := none
  attachments : List String := []

/-- The asynchronous work scheduled by the synchronous body of `sendToAI`:
either a simulation timer, the pending `Poe.sendUserMessage` acknowledgement
(whose continuations close over the initial state), or nothing. -/
inductive PendingWork where
  | simulate (requestId : String) (simulatedResponseOverride : Option (List Message))
  | awaitAck (requestId : String) (initialState : RequestState)
  | finished

/-- Output of the synchronous body of `sendToAI`. -/
structure DispatchOutput where
  registry : Registry
  calls : List (String × RequestState)
  caught : List String
  pending : PendingWork

/-- The repeated error-state construction
`{...initialState, generating: false, error: errorMsg, status: 'error'}`
of the dispatch failure paths (usePoeAi.ts lines 455, 477, 500). -/
def dispatchFailureState (initialState : RequestState) (errorMsg : String) : RequestState :=
  { initialState with generating := false, error := some errorMsg, status := "error" }

/-- The initial state constructed by `sendToAI` (usePoeAi.ts lines 426-432). -/
def initialRequestState (requestId : String) : RequestState :=
  { requestId := requestId
    generating := true
    error := none
    responses := none
    status := "incomplete" }

/-- Embeds the synchronous body of `sendToAI` (usePoeAi.ts lines 415-470):
store the initial entry, invoke the callback synchronously (guarded), then
branch on simulation mode and external-channel availability.  The actual
`Poe.sendUserMessage` acknowledgement is asynchronous and embedded separately
as `dispatchThen` / `dispatchCatch`. -/
def sendToAI (globalSimulation poeAvailable : Bool) (reg : Registry) (requestId : String)
    (prompt : String) (callback : RequestState → Except String Unit)
    (requestOptions : RequestOptions) : DispatchOutput :=
  let _ := prompt
  let initialState := initialRequestState requestId
  let reg0 := Registry.set reg requestId ⟨initialState, callback⟩
  let caught0 := catchToList (callback initialState)
  if globalSimulation then
    ⟨reg0, [(requestId, initialState)], caught0,
      PendingWork.simulate requestId requestOptions.simulatedResponseOverride⟩
  else if poeAvailable = false then
    let errorMsg := "[ReqID: " ++ requestId
      ++ "] usePoeAi Error: window.Poe is not available. Cannot send message."
    let errorState := dispatchFailureState initialState errorMsg
    let reg1 := Registry.set reg0 requestId ⟨errorState, callback⟩
    let caught1 := catchToList (callback errorState)
    ⟨Registry.delete reg1 requestId,
      [(requestId, initialState), (requestId, errorState)],
      caught0 ++ caught1, PendingWork.finished⟩
  else
    ⟨reg0, [(requestId, initialState)], caught0,
      PendingWork.awaitAck requestId initialState⟩

/-- Embeds the `.then` continuation of `Poe.sendUserMessage` (usePoeAi.ts
lines 472-483): on `success:false` with the request still tracked, build a
terminal error state from the dispatch-time initial state, store it, notify
the callback through `tryCatchSync`, and evict the entry. -/
def dispatchThen (reg : Registry) (requestId : String) (initialState : RequestState)
    (success : Bool) : RouterOutput :=
  if success then ⟨reg, [], [], []⟩
  else
    match Registry.get reg requestId with
    | none => ⟨reg, [], [], []⟩
    | some entry =>
      let errorMsg := "[ReqID: " ++ requestId
        ++ "] Poe message dispatch failed immediately (reason unknown)."
      let errorState := dispatchFailureState initialState errorMsg
      let reg1 := Registry.set reg requestId ⟨errorState, entry.callback⟩
      let caught := catchToList (entry.callback errorState)
      ⟨Registry.delete reg1 requestId, [(requestId, errorState)], caught, [errorMsg]⟩

/-- The rejection values distinguished by the `.catch` branch of
`Poe.sendUserMessage` (usePoeAi.ts lines 484-495). -/
inductive DispatchError where
  | poeEmbedAPIError (errorType message : String)
  | jsError (message : String)
  | unknownThrown (stringRepr : String)

/-- The error message the `.catch` branch builds for each rejection shape. -/
def dispatchErrorMsg (requestId : String) : DispatchError → String
  | DispatchError.poeEmbedAPIError t m =>
      "[ReqID: " ++ requestId ++ "] Poe API Error (" ++ t ++ ") during dispatch: " ++ m
  | DispatchError.jsError m =>
      "[ReqID: " ++ requestId ++ "] Error during message dispatch: " ++ m
  | DispatchError.unknownThrown s =>
      "[ReqID: " ++ requestId ++ "] An unknown error occurred during message dispatch: " ++ s

/-- Embeds the `.catch` continuation of `Poe.sendUserMessage` (usePoeAi.ts
lines 484-506): log, and if the request is still tracked, store a terminal
error state, notify the callback through `tryCatchSync`, and evict. -/
def dispatchCatch (reg : Registry) (requestId : String) (initialState : RequestState)
    (err : DispatchError) : RouterOutput :=
  let errorMsg := dispatchErrorMsg requestId err
  match Registry.get reg requestId with
  | none => ⟨reg, [], [], [errorMsg]⟩
  | some entry =>
    let errorState := dispatchFailureState initialState errorMsg
    let reg1 := Registry.set reg requestId ⟨errorState, entry.callback⟩
    let caught := catchToList (entry.callback errorState)
    ⟨Registry.delete reg1 requestId, [(requestId, errorState)], caught, [errorMsg]⟩

/-- Embeds TypeScript `Partial<Message>`: every field optional. -/
structure MessageDraft where
  messageId : Option String := none
  senderId : Option String := none
  content : Option String := none
  contentType : Option String := none
  status : Option String := none
  statusText : Option String := none
  attachments : Option (List MessageAttachment) := none

/-- The spread `{...m}` of a full `Message` into a `Partial<Message>`. -/
def Message.toDraft (m : Message) : MessageDraft :=
  { messageId := some m.messageId
    senderId := some m.senderId
    content := some m.content
    contentType := some m.contentType
    status := some m.status
    statusText := m.statusText
    attachments := m.attachments }

/-- Embeds `SimulationResponseOptions` from usePoeAi.ts. -/
structure SimulationResponseOptions where
  includeDefaultAttachment : Option Bool := none
  status : Option String := none
  responses : Option (List MessageDraft) := none

/-- The placeholder attachment added by `simulationSendUserMessageResult`. -/
def defaultSimAttachment (now idx : Nat) : MessageAttachment :=
  { attachmentId := "sim_att_" ++ toString now ++ "_" ++ toString idx
    mimeType := "image/png"
    url := "https://placehold.co/400.png"
    isInline := false
    name := "placeholder.png" }

/-- One message constructed by `simulationSendUserMessageResult` (usePoeAi.ts
lines 163-188) from a partial message: JavaScript `||` defaults on every
field, `statusText` falling back to "Simulated error" only for an error-status
result, and a placeholder attachment added when requested and none supplied
(`!partialMsg.attachments` is only true for `undefined`/`null`, since an empty
array is truthy). -/
def buildSimMessage (now : Nat) (includeDefaultAttachment : Bool) (status : String)
    (idx : Nat) (draft : MessageDraft) : Message :=
  let message : Message :=
    { messageId := optStrFallback draft.messageId ("sim_" ++ toString now ++ "_" ++ toString idx)
      senderId := optStrFallback draft.senderId "SimulatedAI"
      content := optStrFallback draft.content
        ("This is simulated message #" ++ toString (idx + 1) ++ ".")
      contentType := optStrFallback draft.contentType "text/plain"
      status := optStrFallback draft.status status
      statusText :=
        match draft.statusText with
        | some t =>
            if t = "" then (if status = "error" then some "Simulated error" else none)
            else some t
        | none => if status = "error" then some "Simulated error" else none
      attachments := draft.attachments }
  if includeDefaultAttachment = true ∧ draft.attachments = none then
    { message with attachments := some [defaultSimAttachment now idx] }
  else message

/-- Embeds `simulationSendUserMessageResult` (usePoeAi.ts lines 154-194);
`now` stands for `Date.now()`. -/
def simulationSendUserMessageResult (now : Nat) (opts : SimulationResponseOptions) :
    SendUserMessageResult :=
  let includeDefaultAttachment := opts.includeDefaultAttachment.getD true
  let status := opts.status.getD "complete"
  let drafts := opts.responses.getD [{}]
  let simulatedMessages :=
    drafts.enum.map fun p => buildSimMessage now includeDefaultAttachment status p.1 p.2
  { status := status, responses := some simulatedMessages }

/-- The `simulateErrorChance` normalization of `getDefaultHookOptions`
(usePoeAi.ts lines 113-116): clamp to [0, 100], then divide by 100. -/
def normalizeErrorChance (errorChanceInput : ℚ) : ℚ :=
  min (max errorChanceInput 0) 100 / 100

/-- JavaScript `Math.round` on a rational. -/
def jsRound (q : ℚ) : ℤ := ⌊q + 1 / 2⌋

/-- The `logInfo` string interpolated into the simulated error text. -/
def simLogInfo (errorChance randomRoll : ℚ) : String :=
  "(Error Chance: " ++ toString (jsRound (errorChance * 100)) ++ "%, Rolled: "
    ++ toString (jsRound (randomRoll * 100)) ++ "%)"

/-- The single synthetic error draft the simulator fabricates (usePoeAi.ts
lines 377-384). -/
def simErrorDraft (errorChance randomRoll : ℚ) : MessageDraft :=
  { statusText := some ("Simulated error occurred " ++ simLogInfo errorChance randomRoll)
    status := some "error" }

/-- The fabricated error result of the simulator (usePoeAi.ts lines 380-384). -/
def simErrorResult (now : Nat) (errorChance randomRoll : ℚ) : SendUserMessageResult :=
  simulationSendUserMessageResult now
    { status := some "error"
      responses := some [simErrorDraft errorChance randomRoll]
      includeDefaultAttachment := some false }

/-- The fabricated success result of the simulator (usePoeAi.ts lines
387-394): per-call override messages, else instance-default simulation
messages, else the generic placeholder. -/
def simSuccessResult (now : Nat)
    (simulatedResponseOverride simulationResponses : Option (List Message)) :
    SendUserMessageResult :=
  simulationSendUserMessageResult now
    { responses := (nullish simulatedResponseOverride simulationResponses).map
        fun ms => ms.map Message.toDraft
      status := some "complete" }

/-- Embeds the body of the `setTimeout` callback of `simulateResponse`
(usePoeAi.ts lines 355-400): abort (deleting the entry) if unmounted, abort
if the request is no longer tracked, otherwise draw `randomRoll`, fabricate an
error result when `errorChance > 0 && randomRoll <= errorChance`, else a
success result from the override / instance-default / placeholder messages,
and feed it through `handlePoeResponse` with the request id as context. -/
def simulateTimerFired (mounted : Bool) (reg : Registry) (requestId : String)
    (errorChance randomRoll : ℚ)
    (simulatedResponseOverride simulationResponses : Option (List Message))
    (now : Nat) : RouterOutput :=
  if mounted = false then
    ⟨Registry.delete reg requestId, [], [],
      ["component unmounted during simulation delay: " ++ requestId]⟩
  else if Registry.hasKey reg requestId = false then
    ⟨reg, [], [], ["simulation timer fired but request no longer active: " ++ requestId]⟩
  else
    handlePoeResponse mounted reg
      (if errorChance > 0 ∧ randomRoll ≤ errorChance then
        simErrorResult now errorChance randomRoll
      else
        simSuccessResult now simulatedResponseOverride simulationResponses)
      (some requestId)

/-- Modelled from the spec (section 4.3, testable property for C7): the
human-readable error message is the concatenation, over the failed responses,
of "[senderId Error]: statusText" — fallback sender "Bot" and fallback text
"Unknown error" when absent (an empty string counts as absent, as under
JavaScript truthiness) — joined by newlines, with a generic fallback when no
per-message detail exists. -/
def specErrorLine (msg : Message) : String :=
  "[" ++ (if msg.senderId = "" then "Bot" else msg.senderId) ++ " Error]: "
    ++ (match msg.statusText with
        | none => "Unknown error"
        | some t => if t = "" then "Unknown error" else t)

/-- Modelled from the spec: the full synthesized error message (see
`specErrorLine`). -/
def specErrorMessage (result : SendUserMessageResult) : String :=
  let failed := (result.responses.getD []).filter fun msg => decide (msg.status = "error")
  let joined := String.intercalate "\n" (failed.map specErrorLine)
  if joined = "" then "An unknown error occurred during response generation." else joined

/-! ### Helper lemmas about one Response Router step on a live, registered id -/

theorem router_calls_known (reg : Registry) (result : SendUserMessageResult)
    (requestId : String) (entry : RequestEntry)
    (hid : requestId ≠ "") (hreg : Registry.get reg requestId = some entry) :
    (handlePoeResponse true reg result (some requestId)).calls
      = [(requestId, routerNewState entry.state result)] := by
  unfold handlePoeResponse
  simp [hid, hreg]

theorem router_registry_known (reg : Registry) (result : SendUserMessageResult)
    (requestId : String) (entry : RequestEntry)
    (hid : requestId ≠ "") (hreg : Registry.get reg requestId = some entry) :
    (handlePoeResponse true reg result (some requestId)).registry
      = (if (routerNewState entry.state result).status = "complete"
            ∨ (routerNewState entry.state result).status = "error" then
          Registry.delete
            (Registry.set reg requestId ⟨routerNewState entry.state result, entry.callback⟩)
            requestId
        else
          Registry.set reg requestId ⟨routerNewState entry.state result, entry.callback⟩) := by
  unfold handlePoeResponse
  simp [hid, hreg]

theorem router_caught_known (reg : Registry) (result : SendUserMessageResult)
    (requestId : String) (entry : RequestEntry)
    (hid : requestId ≠ "") (hreg : Registry.get reg requestId = some entry) :
    (handlePoeResponse true reg result (some requestId)).caught
      = catchToList (entry.callback (routerNewState entry.state result)) := by
  unfold handlePoeResponse
  simp [hid, hreg]

theorem router_evicts_terminal (reg : Registry) (result : SendUserMessageResult)
    (requestId : String) (entry : RequestEntry)
    (hid : requestId ≠ "") (hreg : Registry.get reg requestId = some entry)
    (hterm : (routerNewState entry.state result).status = "complete"
      ∨ (routerNewState entry.state result).status = "error") :
    Registry.get (handlePoeResponse true reg result (some requestId)).registry requestId
      = none := by
  rw [router_registry_known reg result requestId entry hid hreg, if_pos hterm,
    Registry.delete_set_self, Registry.get_delete_self]

theorem simTimer_live (reg : Registry) (requestId : String)
    (errorChance randomRoll : ℚ)
    (override simResponses : Option (List Message)) (now : Nat)
    (hkey : Registry.hasKey reg requestId = true) :
    simulateTimerFired true reg requestId errorChance randomRoll override simResponses now
      = handlePoeResponse true reg
          (if errorChance > 0 ∧ randomRoll ≤ errorChance then
            simErrorResult now errorChance randomRoll
          else simSuccessResult now override simResponses)
          (some requestId) := by
  unfold simulateTimerFired
  have hk2 : ¬(Registry.hasKey reg requestId = false) := by simp [hkey]
  rw [if_neg (by simp : ¬(true = false)), if_neg hk2]

/-! ### Concrete sample data used by the witness theorems -/

/-- A consumer callback that returns normally. -/
def sampleCb : RequestState → Except String Unit := fun _ => Except.ok ()

/-- A consumer callback that throws. -/
def throwingCb : RequestState → Except String Unit := fun _ => Except.error "consumer boom"

def sampleMsg : Message :=
  { messageId := "m1", senderId := "Claude", content := "hello",
    contentType := "text/plain", status := "complete", statusText := none,
    attachments := none }

def sampleEntry : RequestEntry := ⟨initialRequestState "req_1", sampleCb⟩

def sampleReg : Registry := [("req_1", sampleEntry)]

/-! ### The claims -/

/-- Claim C1: for every call `dispatch(prompt, callback, options)`, the
consumer callback is invoked first, synchronously within the dispatch call
(in the embedding: within the synchronous body `sendToAI`, before the
`PendingWork` it schedules runs), with the initial state
`{generating:true, status:pending, error:null, responses:null}` — where
`pending` is the specification's name for the code's initial `'incomplete'`
status — and this is the first state the callback receives for that
requestId. -/
theorem claim1_initial_callback_first (globalSimulation poeAvailable : Bool)
    (reg : Registry) (requestId prompt : String)
    (callback : RequestState → Except String Unit) (opts : RequestOptions) :
    (sendToAI globalSimulation poeAvailable reg requestId prompt callback opts).calls.head?
      = some (requestId,
          { requestId := requestId, generating := true, error := none,
            responses := none, status := "incomplete" }) := by
  unfold sendToAI
  by_cases hs : globalSimulation
  · simp [hs, initialRequestState]
  · by_cases hp : poeAvailable
    · simp [hs, hp, initialRequestState]
    · simp [hs, hp, initialRequestState]

/-- Claim C3: a Response Router invocation naming a requestId that is absent
from the Registry (evicted after a terminal state, or never registered)
invokes no consumer callback and leaves the Registry entirely unchanged. -/
theorem claim3_unknown_id_noop (mounted : Bool) (reg : Registry)
    (result : SendUserMessageResult) (requestId : String)
    (h : Registry.get reg requestId = none) :
    (handlePoeResponse mounted reg result (some requestId)).registry = reg ∧
    (handlePoeResponse mounted reg result (some requestId)).calls = [] := by
  unfold handlePoeResponse
  by_cases hq : requestId = ""
  · simp [hq]
  · simp [hq, h]

/-- Claim C4: once the Lifecycle Guard is torn down (`isMounted` false), no
previously-registered consumer callback is invoked again: both a late external
channel delivery through the Response Router and a pending simulator timer
firing produce zero callback invocations. -/
theorem claim4_teardown_no_callbacks (reg : Registry) (result : SendUserMessageResult)
    (context : Option String) (requestId : String) (errorChance randomRoll : ℚ)
    (override simResponses : Option (List Message)) (now : Nat) :
    (handlePoeResponse false reg result context).calls = [] ∧
    (simulateTimerFired false reg requestId errorChance randomRoll
        override simResponses now).calls = [] := by
  constructor
  · unfold handlePoeResponse
    cases context with
    | none => rfl
    | some rid =>
        by_cases hq : rid = ""
        · simp [hq]
        · cases hg : Registry.get reg rid <;> simp [hq, hg]
  · unfold simulateTimerFired
    simp

/-- Witness for C3 at a concrete input: the empty registry knows no id. -/
theorem claim3_witness :
    (handlePoeResponse true ([] : Registry) ⟨"complete", none⟩ (some "req_x")).registry
        = ([] : Registry) ∧
    (handlePoeResponse true ([] : Registry) ⟨"complete", none⟩ (some "req_x")).calls = [] :=
  claim3_unknown_id_noop true ([] : Registry) ⟨"complete", none⟩ "req_x" rfl

/-! ### Claim C2: responses replacement -/

/-- A registry entry that already holds one response message. -/
def c2Entry : RequestEntry :=
  ⟨{ requestId := "req_1", generating := true, error := none,
     responses := some [sampleMsg], status := "incomplete" }, sampleCb⟩

def c2Reg : Registry := [("req_1", c2Entry)]

/-- A router result carrying a present-but-empty responses sequence. -/
def c2Result : SendUserMessageResult := { status := "incomplete", responses := some [] }

/-- Claim C2 counterexample: the claim says a present-but-empty responses
sequence retains the previous responses, but the code uses nullish
coalescing (`result.responses ?? currentState.responses`), so an empty
sequence replaces them: with previous responses `[sampleMsg]` and an incoming
empty sequence, the delivered state's responses are `some []`, not
`some [sampleMsg]`. -/
theorem claim2_counterexample :
    (handlePoeResponse true c2Reg c2Result (some "req_1")).calls.map (fun p => p.2.responses)
        = [some []]
    ∧ c2Entry.state.responses = some [sampleMsg]
    ∧ some ([] : List Message) ≠ some [sampleMsg] := by
  refine ⟨rfl, rfl, by decide⟩

/-- Claim C2 (amended): for every Response Router invocation on a registered,
live requestId, the new state's responses field equals the incoming result's
responses whenever that sequence is present — including a present-but-empty
sequence, which replaces the prior one — and retains the previous state's
responses only when the sequence is absent; a supplied sequence fully
replaces the prior one without merging. -/
theorem claim2_amended_responses (reg : Registry) (requestId : String)
    (entry : RequestEntry) (result : SendUserMessageResult)
    (hid : requestId ≠ "") (hreg : Registry.get reg requestId = some entry) :
    ∃ st, (handlePoeResponse true reg result (some requestId)).calls = [(requestId, st)]
      ∧ (∀ rs, result.responses = some rs → st.responses = some rs)
      ∧ (result.responses = none → st.responses = entry.state.responses) := by
  refine ⟨routerNewState entry.state result,
    router_calls_known reg result requestId entry hid hreg, ?_, ?_⟩
  · intro rs hrs
    unfold routerNewState
    split_ifs <;> simp [nullish, hrs]
  · intro hrs
    unfold routerNewState
    split_ifs <;> simp [nullish, hrs]

/-- Witness for the amended C2 at a concrete input. -/
theorem claim2_amended_witness :
    ∃ st, (handlePoeResponse true c2Reg c2Result (some "req_1")).calls = [("req_1", st)]
      ∧ (∀ rs, c2Result.responses = some rs → st.responses = some rs)
      ∧ (c2Result.responses = none → st.responses = c2Entry.state.responses) :=
  claim2_amended_responses c2Reg "req_1" c2Entry c2Result (by decide) rfl

/-! ### Claim C6: the two dispatch-time failure shapes -/

/-- Claim C6: for a still-tracked request, the `.then` branch receiving
`success:false` and the `.catch` branch receiving a rejection have identical
effect: both evict the Registry entry (producing the very same registry,
`Registry.delete reg requestId`) and deliver exactly one terminal
`status:error` state, built from the dispatch-time initial state, with a
non-null error message. -/
theorem claim6_dispatch_failures (reg : Registry) (requestId : String)
    (entry : RequestEntry) (initialState : RequestState) (err : DispatchError)
    (hreg : Registry.get reg requestId = some entry) :
    (dispatchThen reg requestId initialState false).registry = Registry.delete reg requestId
    ∧ (dispatchCatch reg requestId initialState err).registry = Registry.delete reg requestId
    ∧ Registry.get (dispatchThen reg requestId initialState false).registry requestId = none
    ∧ Registry.get (dispatchCatch reg requestId initialState err).registry requestId = none
    ∧ (dispatchThen reg requestId initialState false).calls
        = [(requestId, dispatchFailureState initialState ("[ReqID: " ++ requestId
              ++ "] Poe message dispatch failed immediately (reason unknown)."))]
    ∧ (dispatchCatch reg requestId initialState err).calls
        = [(requestId, dispatchFailureState initialState (dispatchErrorMsg requestId err))]
    ∧ (dispatchFailureState initialState ("[ReqID: " ++ requestId
          ++ "] Poe message dispatch failed immediately (reason unknown).")).status = "error"
    ∧ (dispatchFailureState initialState ("[ReqID: " ++ requestId
          ++ "] Poe message dispatch failed immediately (reason unknown).")).error.isSome = true
    ∧ (dispatchFailureState initialState (dispatchErrorMsg requestId err)).status = "error"
    ∧ (dispatchFailureState initialState (dispatchErrorMsg requestId err)).error.isSome
        = true := by
  unfold dispatchThen dispatchCatch
  simp only [hreg, Bool.false_eq_true, if_false]
  refine ⟨Registry.delete_set_self reg requestId _, Registry.delete_set_self reg requestId _,
    ?_, ?_, ?_, ?_, ?_, ?_, ?_, ?_⟩
  · rw [Registry.delete_set_self reg requestId _]
    exact Registry.get_delete_self reg requestId
  · rw [Registry.delete_set_self reg requestId _]
    exact Registry.get_delete_self reg requestId
  all_goals simp [dispatchFailureState]

/-- Witness for C6 at a concrete input. -/
theorem claim6_witness :
    (dispatchThen sampleReg "req_1" (initialRequestState "req_1") false).registry
        = Registry.delete sampleReg "req_1"
    ∧ (dispatchCatch sampleReg "req_1" (initialRequestState "req_1")
          (DispatchError.jsError "Network Failed")).registry
        = Registry.delete sampleReg "req_1"
    ∧ Registry.get (dispatchThen sampleReg "req_1" (initialRequestState "req_1") false).registry
        "req_1" = none
    ∧ Registry.get (dispatchCatch sampleReg "req_1" (initialRequestState "req_1")
          (DispatchError.jsError "Network Failed")).registry "req_1" = none
    ∧ (dispatchThen sampleReg "req_1" (initialRequestState "req_1") false).calls
        = [("req_1", dispatchFailureState (initialRequestState "req_1") ("[ReqID: " ++ "req_1"
              ++ "] Poe message dispatch failed immediately (reason unknown)."))]
    ∧ (dispatchCatch sampleReg "req_1" (initialRequestState "req_1")
          (DispatchError.jsError "Network Failed")).calls
        = [("req_1", dispatchFailureState (initialRequestState "req_1")
            (dispatchErrorMsg "req_1" (DispatchError.jsError "Network Failed")))]
    ∧ (dispatchFailureState (initialRequestState "req_1") ("[ReqID: " ++ "req_1"
          ++ "] Poe message dispatch failed immediately (reason unknown).")).status = "error"
    ∧ (dispatchFailureState (initialRequestState "req_1") ("[ReqID: " ++ "req_1"
          ++ "] Poe message dispatch failed immediately (reason unknown).")).error.isSome = true
    ∧ (dispatchFailureState (initialRequestState "req_1")
        (dispatchErrorMsg "req_1" (DispatchError.jsError "Network Failed"))).status = "error"
    ∧ (dispatchFailureState (initialRequestState "req_1")
        (dispatchErrorMsg "req_1" (DispatchError.jsError "Network Failed"))).error.isSome
        = true :=
  claim6_dispatch_failures sampleReg "req_1" sampleEntry (initialRequestState "req_1")
    (DispatchError.jsError "Network Failed") rfl

/-! ### Claim C7: error message synthesis -/

theorem codeLine_eq_specLine (m : Message) :
    "[" ++ strFallback m.senderId "Bot" ++ " Error]: "
        ++ optStrFallback m.statusText "Unknown error"
      = specErrorLine m := by
  unfold specErrorLine strFallback optStrFallback
  cases m.statusText <;> rfl

theorem filterMap_error_lines (l : List Message) :
    (l.filterMap fun msg => if msg.status = "error" then some (specErrorLine msg) else none)
      = ((l.filter fun msg => decide (msg.status = "error")).map specErrorLine) := by
  induction l with
  | nil => rfl
  | cons m rest ih =>
      by_cases h : m.status = "error"
      · simp [List.filterMap_cons, List.filter_cons, h, ih]
      · simp [List.filterMap_cons, List.filter_cons, h, ih]

/-- The router's synthesized error text coincides with the specification's
description of it. -/
theorem computeErrorMsg_eq_spec (result : SendUserMessageResult) :
    computeErrorMsg result.responses = specErrorMessage result := by
  unfold computeErrorMsg specErrorMessage
  have hfun : (fun msg : Message =>
      if msg.status = "error" then
        some ("[" ++ strFallback msg.senderId "Bot" ++ " Error]: "
          ++ optStrFallback msg.statusText "Unknown error")
      else none)
      = (fun msg : Message =>
          if msg.status = "error" then some (specErrorLine msg) else none) := by
    funext msg
    rw [codeLine_eq_specLine]
  rw [hfun, filterMap_error_lines (result.responses.getD [])]
  unfold strFallback
  rfl

/-- Claim C7: on a registered, live requestId, a result with status `error`
yields a new state whose error field is the newline-joined concatenation of
"[senderId Error]: statusText" over the result's error-status responses (with
fallbacks "Bot" / "Unknown error", and a generic message when no per-message
detail exists), exactly as `specErrorMessage` describes; a result with status
`incomplete` or `complete` yields `error = null`. -/
theorem claim7_error_field (reg : Registry) (requestId : String)
    (entry : RequestEntry) (result : SendUserMessageResult)
    (hid : requestId ≠ "") (hreg : Registry.get reg requestId = some entry) :
    ∃ st, (handlePoeResponse true reg result (some requestId)).calls = [(requestId, st)]
      ∧ (result.status = "error" → st.error = some (specErrorMessage result))
      ∧ (result.status = "incomplete" ∨ result.status = "complete" → st.error = none) := by
  refine ⟨routerNewState entry.state result,
    router_calls_known reg result requestId entry hid hreg, ?_, ?_⟩
  · intro h
    unfold routerNewState
    rw [if_pos h]
    simp [computeErrorMsg_eq_spec]
  · rintro (h | h) <;> simp [routerNewState, h]

/-- A concrete failed response message for the C7 witness. -/
def c7Msg : Message :=
  { messageId := "m2", senderId := "Bot9", content := "", contentType := "text/plain",
    status := "error", statusText := some "boom", attachments := none }

/-- A concrete error-status result for the C7 witness. -/
def c7Result : SendUserMessageResult := ⟨"error", some [c7Msg]⟩

/-- Witness for C7: one error-status response with sender and text, at
concrete inputs. -/
theorem claim7_witness :
    ∃ st, (handlePoeResponse true c2Reg c7Result (some "req_1")).calls = [("req_1", st)]
      ∧ (c7Result.status = "error" → st.error = some (specErrorMessage c7Result))
      ∧ (c7Result.status = "incomplete" ∨ c7Result.status = "complete"
          → st.error = none) :=
  claim7_error_field c2Reg "req_1" c2Entry c7Result (by decide) rfl

/-! ### Claim C8: status copying and coercion -/

/-- Claim C8: on a registered, live requestId, the new state's status is
copied from the result's status when that status is one of incomplete,
complete, error; any other status is coerced to `error` with a diagnostic
message, and — the coerced status being terminal — the entry is evicted from
the Registry. -/
theorem claim8_status_coercion (reg : Registry) (requestId : String)
    (entry : RequestEntry) (result : SendUserMessageResult)
    (hid : requestId ≠ "") (hreg : Registry.get reg requestId = some entry) :
    ∃ st, (handlePoeResponse true reg result (some requestId)).calls = [(requestId, st)]
      ∧ (result.status = "incomplete" ∨ result.status = "complete" ∨ result.status = "error"
          → st.status = result.status)
      ∧ (result.status ≠ "incomplete" → result.status ≠ "complete" → result.status ≠ "error"
          → st.status = "error"
            ∧ st.error = some ("Unknown status received from AI handler: " ++ result.status)
            ∧ Registry.get (handlePoeResponse true reg result (some requestId)).registry
                requestId = none) := by
  refine ⟨routerNewState entry.state result,
    router_calls_known reg result requestId entry hid hreg, ?_, ?_⟩
  · rintro (h | h | h) <;> simp [routerNewState, h]
  · intro h1 h2 h3
    have hst : (routerNewState entry.state result).status = "error"
        ∧ (routerNewState entry.state result).error
          = some ("Unknown status received from AI handler: " ++ result.status) := by
      unfold routerNewState
      rw [if_neg h3, if_pos ⟨h1, h2⟩]
      exact ⟨rfl, rfl⟩
    refine ⟨hst.1, hst.2, ?_⟩
    rw [router_registry_known reg result requestId entry hid hreg]
    rw [if_pos (Or.inr hst.1)]
    rw [Registry.delete_set_self reg requestId _]
    exact Registry.get_delete_self reg requestId

/-- Witness for C8 at a concrete input (an out-of-contract status "banana"). -/
theorem claim8_witness :
    ∃ st, (handlePoeResponse true c2Reg ⟨"banana", none⟩ (some "req_1")).calls
        = [("req_1", st)]
      ∧ (("banana" : String) = "incomplete" ∨ ("banana" : String) = "complete"
            ∨ ("banana" : String) = "error" → st.status = "banana")
      ∧ (("banana" : String) ≠ "incomplete" → ("banana" : String) ≠ "complete"
          → ("banana" : String) ≠ "error"
          → st.status = "error"
            ∧ st.error = some ("Unknown status received from AI handler: " ++ "banana")
            ∧ Registry.get (handlePoeResponse true c2Reg ⟨"banana", none⟩
                (some "req_1")).registry "req_1" = none) :=
  claim8_status_coercion c2Reg "req_1" c2Entry ⟨"banana", none⟩ (by decide) rfl

/-! ### Claim C10: frame property of the Response Router -/

/-- Claim C10: a Response Router invocation carrying context requestId X
mutates at most the Registry entry keyed by X: every other key keeps its
entry (state and callback) unchanged, every callback invocation the step
performs is keyed by X, and no entry is created under any key (in particular,
when X itself is unknown the Registry is returned unchanged). -/
theorem claim10_router_frame (mounted : Bool) (reg : Registry)
    (result : SendUserMessageResult) (x y : String) (hxy : y ≠ x) :
    Registry.get (handlePoeResponse mounted reg result (some x)).registry y
        = Registry.get reg y
    ∧ (∀ p ∈ (handlePoeResponse mounted reg result (some x)).calls, p.1 = x)
    ∧ (Registry.get reg x = none
        → (handlePoeResponse mounted reg result (some x)).registry = reg) := by
  refine ⟨?_, ?_, ?_⟩
  · by_cases hq : x = ""
    · unfold handlePoeResponse
      simp [hq]
    · cases hg : Registry.get reg x with
      | none =>
          unfold handlePoeResponse
          simp [hq, hg]
      | some entry =>
          cases mounted with
          | false =>
              unfold handlePoeResponse
              simp [hq, hg]
          | true =>
              rw [router_registry_known reg result x entry hq hg]
              split_ifs with ht
              · rw [Registry.get_delete_ne _ _ _ hxy, Registry.get_set_ne _ _ _ _ hxy]
              · rw [Registry.get_set_ne _ _ _ _ hxy]
  · intro p hp
    by_cases hq : x = ""
    · unfold handlePoeResponse at hp
      simp [hq] at hp
    · cases hg : Registry.get reg x with
      | none =>
          unfold handlePoeResponse at hp
          simp [hq, hg] at hp
      | some entry =>
          cases mounted with
          | false =>
              unfold handlePoeResponse at hp
              simp [hq, hg] at hp
          | true =>
              rw [router_calls_known reg result x entry hq hg] at hp
              simp at hp
              rw [hp]
  · intro h0
    unfold handlePoeResponse
    by_cases hq : x = ""
    · simp [hq]
    · simp [hq, h0]

/-- Witness for C10 with a two-entry registry at concrete keys. -/
theorem claim10_witness :
    Registry.get (handlePoeResponse true (("req_2", c2Entry) :: sampleReg)
        ⟨"complete", none⟩ (some "req_2")).registry "req_1"
        = Registry.get (("req_2", c2Entry) :: sampleReg) "req_1"
    ∧ (∀ p ∈ (handlePoeResponse true (("req_2", c2Entry) :: sampleReg)
        ⟨"complete", none⟩ (some "req_2")).calls, p.1 = "req_2")
    ∧ (Registry.get (("req_2", c2Entry) :: sampleReg) "req_2" = none
        → (handlePoeResponse true (("req_2", c2Entry) :: sampleReg)
            ⟨"complete", none⟩ (some "req_2")).registry
          = ("req_2", c2Entry) :: sampleReg) :=
  claim10_router_frame true (("req_2", c2Entry) :: sampleReg) ⟨"complete", none⟩
    "req_2" "req_1" (by decide)

/-! ### Claim C5: simulator error probability at the extremes -/

/-- Claim C5: for a live, registered request, with `simulateErrorChance`
configured to 100 (normalized to probability 1) every possible uniform draw
in [0, 1) takes the error branch, so the simulation delivers exactly one
terminal `status:error` event and evicts the entry; with the chance
configured to 0, no draw takes the error branch, so it delivers exactly one
terminal `status:complete` event (with `error = null`) and evicts the
entry. -/
theorem claim5_error_probability (reg : Registry) (requestId : String)
    (entry : RequestEntry) (randomRoll : ℚ)
    (override simResponses : Option (List Message)) (now : Nat)
    (hid : requestId ≠ "") (hreg : Registry.get reg requestId = some entry)
    (h0 : 0 ≤ randomRoll) (h1 : randomRoll < 1) :
    (∃ st, (simulateTimerFired true reg requestId (normalizeErrorChance 100) randomRoll
          override simResponses now).calls = [(requestId, st)]
        ∧ st.status = "error" ∧ st.generating = false ∧ st.error.isSome = true)
    ∧ Registry.get (simulateTimerFired true reg requestId (normalizeErrorChance 100)
          randomRoll override simResponses now).registry requestId = none
    ∧ (∃ st, (simulateTimerFired true reg requestId (normalizeErrorChance 0) randomRoll
          override simResponses now).calls = [(requestId, st)]
        ∧ st.status = "complete" ∧ st.generating = false ∧ st.error = none)
    ∧ Registry.get (simulateTimerFired true reg requestId (normalizeErrorChance 0)
          randomRoll override simResponses now).registry requestId = none := by
  have hc1 : normalizeErrorChance 100 = 1 := by norm_num [normalizeErrorChance]
  have hc0 : normalizeErrorChance 0 = 0 := by norm_num [normalizeErrorChance]
  have hkey : Registry.hasKey reg requestId = true := by
    simp [Registry.hasKey, hreg]
  have hcond1 : (normalizeErrorChance 100 > 0 ∧ randomRoll ≤ normalizeErrorChance 100) := by
    rw [hc1]
    exact ⟨by norm_num, le_of_lt h1⟩
  have hcond0 : ¬(normalizeErrorChance 0 > 0 ∧ randomRoll ≤ normalizeErrorChance 0) := by
    rw [hc0]
    rintro ⟨hlt, -⟩
    exact absurd hlt (by norm_num)
  have herrstatus : (routerNewState entry.state
      (simErrorResult now (normalizeErrorChance 100) randomRoll)).status = "error" := by
    simp [routerNewState, simErrorResult, simulationSendUserMessageResult]
  have hokstatus : (routerNewState entry.state
      (simSuccessResult now override simResponses)).status = "complete" := by
    simp [routerNewState, simSuccessResult, simulationSendUserMessageResult]
  rw [simTimer_live reg requestId (normalizeErrorChance 100) randomRoll override simResponses
      now hkey,
    simTimer_live reg requestId (normalizeErrorChance 0) randomRoll override simResponses
      now hkey,
    if_pos hcond1, if_neg hcond0]
  refine ⟨?_, ?_, ?_, ?_⟩
  · refine ⟨routerNewState entry.state _, router_calls_known _ _ _ _ hid hreg,
      herrstatus, ?_, ?_⟩
    · simp [routerNewState, simErrorResult, simulationSendUserMessageResult]
    · simp [routerNewState, simErrorResult, simulationSendUserMessageResult]
  · exact router_evicts_terminal _ _ _ _ hid hreg (Or.inr herrstatus)
  · refine ⟨routerNewState entry.state _, router_calls_known _ _ _ _ hid hreg,
      hokstatus, ?_, ?_⟩
    · simp [routerNewState, simSuccessResult, simulationSendUserMessageResult]
    · simp [routerNewState, simSuccessResult, simulationSendUserMessageResult]
  · exact router_evicts_terminal _ _ _ _ hid hreg (Or.inl hokstatus)

/-- Witness for C5 at a concrete draw of 1/2 on the sample registry. -/
theorem claim5_witness :
    (∃ st, (simulateTimerFired true sampleReg "req_1" (normalizeErrorChance 100) (1 / 2)
          none none 0).calls = [("req_1", st)]
        ∧ st.status = "error" ∧ st.generating = false ∧ st.error.isSome = true)
    ∧ Registry.get (simulateTimerFired true sampleReg "req_1" (normalizeErrorChance 100)
          (1 / 2) none none 0).registry "req_1" = none
    ∧ (∃ st, (simulateTimerFired true sampleReg "req_1" (normalizeErrorChance 0) (1 / 2)
          none none 0).calls = [("req_1", st)]
        ∧ st.status = "complete" ∧ st.generating = false ∧ st.error = none)
    ∧ Registry.get (simulateTimerFired true sampleReg "req_1" (normalizeErrorChance 0)
          (1 / 2) none none 0).registry "req_1" = none :=
  claim5_error_probability sampleReg "req_1" sampleEntry (1 / 2) none none 0
    (by decide) rfl (by norm_num) (by norm_num)

/-! ### Claim C9: callback exceptions are caught and do not disturb the Registry -/

/-- A tracked entry whose stored consumer callback throws. -/
def c9Entry : RequestEntry := ⟨initialRequestState "req_1", throwingCb⟩

def c9Reg : Registry := [("req_1", c9Entry)]

def c9Result : SendUserMessageResult := ⟨"complete", some [sampleMsg]⟩

/-- Claim C9: at every consumer-callback invocation site — the Response
Router, the synchronous body of `dispatch`, and the two dispatch-failure
continuations — the registry contents (state view) and the sequence of
delivered states are identical no matter which callback is stored (hence a
throwing callback produces the same Registry update and terminal eviction as
a non-throwing one), and an exception the callback throws at the Router site
is caught and logged (recorded in `caught`), never propagated — every
embedded operation is a total function. -/
theorem claim9_callback_isolation (mounted : Bool) (reg : Registry) (requestId : String)
    (entry : RequestEntry) (cb2 cbA cbB : RequestState → Except String Unit)
    (result : SendUserMessageResult) (initialState : RequestState)
    (success sim poe : Bool) (err : DispatchError) (e : String)
    (prompt : String) (opts : RequestOptions)
    (hreg : Registry.get reg requestId = some entry) :
    Registry.stateView (handlePoeResponse mounted
          (Registry.set reg requestId ⟨entry.state, cb2⟩) result (some requestId)).registry
        = Registry.stateView (handlePoeResponse mounted reg result (some requestId)).registry
    ∧ (handlePoeResponse mounted (Registry.set reg requestId ⟨entry.state, cb2⟩) result
          (some requestId)).calls
        = (handlePoeResponse mounted reg result (some requestId)).calls
    ∧ Registry.stateView (sendToAI sim poe reg requestId prompt cbA opts).registry
        = Registry.stateView (sendToAI sim poe reg requestId prompt cbB opts).registry
    ∧ (sendToAI sim poe reg requestId prompt cbA opts).calls
        = (sendToAI sim poe reg requestId prompt cbB opts).calls
    ∧ Registry.stateView (dispatchThen (Registry.set reg requestId ⟨entry.state, cb2⟩)
          requestId initialState success).registry
        = Registry.stateView (dispatchThen reg requestId initialState success).registry
    ∧ (dispatchThen (Registry.set reg requestId ⟨entry.state, cb2⟩) requestId initialState
          success).calls
        = (dispatchThen reg requestId initialState success).calls
    ∧ Registry.stateView (dispatchCatch (Registry.set reg requestId ⟨entry.state, cb2⟩)
          requestId initialState err).registry
        = Registry.stateView (dispatchCatch reg requestId initialState err).registry
    ∧ (dispatchCatch (Registry.set reg requestId ⟨entry.state, cb2⟩) requestId initialState
          err).calls
        = (dispatchCatch reg requestId initialState err).calls
    ∧ (mounted = true → entry.callback (routerNewState entry.state result) = Except.error e
        → requestId ≠ ""
        → (handlePoeResponse mounted reg result (some requestId)).caught = [e]) := by
  have hreg2 : Registry.get (Registry.set reg requestId ⟨entry.state, cb2⟩) requestId
      = some ⟨entry.state, cb2⟩ := Registry.get_set_self reg requestId _
  have hsv : Registry.stateView (Registry.set reg requestId ⟨entry.state, cb2⟩)
      = Registry.stateView reg := by
    rw [Registry.stateView_set]
    exact sset_self_of_get reg requestId entry hreg
  refine ⟨?_, ?_, ?_, ?_, ?_, ?_, ?_, ?_, ?_⟩
  · -- Router: registry state view unchanged under callback replacement
    by_cases hq : requestId = ""
    · subst hq
      unfold handlePoeResponse
      simp [hsv]
    · cases mounted with
      | false =>
          unfold handlePoeResponse
          simp [hq, hreg, hreg2, hsv]
      | true =>
          rw [router_registry_known _ result requestId ⟨entry.state, cb2⟩ hq hreg2,
            router_registry_known reg result requestId entry hq hreg]
          split_ifs with ht
          · simp [Registry.stateView_delete, Registry.stateView_set, hsv, sset_sset_same]
          · simp [Registry.stateView_set, hsv, sset_sset_same]
  · -- Router: delivered states unchanged under callback replacement
    by_cases hq : requestId = ""
    · unfold handlePoeResponse
      simp [hq]
    · cases mounted with
      | false =>
          unfold handlePoeResponse
          simp [hq, hreg, hreg2]
      | true =>
          rw [router_calls_known _ result requestId ⟨entry.state, cb2⟩ hq hreg2,
            router_calls_known reg result requestId entry hq hreg]
  · -- dispatch: registry state view independent of the supplied callback
    unfold sendToAI
    cases sim with
    | true =>
        simp only [if_true]
        simp [Registry.stateView_set]
    | false =>
        cases poe with
        | false =>
            simp [Registry.stateView_delete, Registry.stateView_set, sset_sset_same]
        | true => simp [Registry.stateView_set]
  · -- dispatch: delivered states independent of the supplied callback
    unfold sendToAI
    cases sim with
    | true => simp
    | false => cases poe with
      | false => simp
      | true => simp
  · -- dispatchThen: registry state view unchanged under callback replacement
    unfold dispatchThen
    cases success with
    | true => simpa using hsv
    | false =>
        simp only [hreg, hreg2, Bool.false_eq_true, if_false]
        simp [Registry.stateView_delete, Registry.stateView_set, hsv, sdel_sset_same]
  · -- dispatchThen: delivered states unchanged under callback replacement
    unfold dispatchThen
    cases success with
    | true => simp
    | false => simp [hreg, hreg2]
  · -- dispatchCatch: registry state view unchanged under callback replacement
    unfold dispatchCatch
    simp only [hreg, hreg2]
    simp [Registry.stateView_delete, Registry.stateView_set, hsv, sdel_sset_same]
  · -- dispatchCatch: delivered states unchanged under callback replacement
    unfold dispatchCatch
    simp [hreg, hreg2]
  · -- a thrown callback exception is caught and recorded
    intro hm hcb hq
    subst hm
    rw [router_caught_known reg result requestId entry hq hreg, hcb]
    rfl

/-- Witness for C9 at concrete inputs, with a throwing callback stored for
the tracked request. -/
theorem claim9_witness :
    Registry.stateView (handlePoeResponse true
          (Registry.set c9Reg "req_1" ⟨c9Entry.state, sampleCb⟩) c9Result
          (some "req_1")).registry
        = Registry.stateView (handlePoeResponse true c9Reg c9Result (some "req_1")).registry
    ∧ (handlePoeResponse true (Registry.set c9Reg "req_1" ⟨c9Entry.state, sampleCb⟩) c9Result
          (some "req_1")).calls
        = (handlePoeResponse true c9Reg c9Result (some "req_1")).calls
    ∧ Registry.stateView (sendToAI true true c9Reg "req_1" "hi" throwingCb {}).registry
        = Registry.stateView (sendToAI true true c9Reg "req_1" "hi" sampleCb {}).registry
    ∧ (sendToAI true true c9Reg "req_1" "hi" throwingCb {}).calls
        = (sendToAI true true c9Reg "req_1" "hi" sampleCb {}).calls
    ∧ Registry.stateView (dispatchThen (Registry.set c9Reg "req_1" ⟨c9Entry.state, sampleCb⟩)
          "req_1" (initialRequestState "req_1") false).registry
        = Registry.stateView (dispatchThen c9Reg "req_1" (initialRequestState "req_1")
            false).registry
    ∧ (dispatchThen (Registry.set c9Reg "req_1" ⟨c9Entry.state, sampleCb⟩) "req_1"
          (initialRequestState "req_1") false).calls
        = (dispatchThen c9Reg "req_1" (initialRequestState "req_1") false).calls
    ∧ Registry.stateView (dispatchCatch (Registry.set c9Reg "req_1" ⟨c9Entry.state, sampleCb⟩)
          "req_1" (initialRequestState "req_1") (DispatchError.jsError "nf")).registry
        = Registry.stateView (dispatchCatch c9Reg "req_1" (initialRequestState "req_1")
            (DispatchError.jsError "nf")).registry
    ∧ (dispatchCatch (Registry.set c9Reg "req_1" ⟨c9Entry.state, sampleCb⟩) "req_1"
          (initialRequestState "req_1") (DispatchError.jsError "nf")).calls
        = (dispatchCatch c9Reg "req_1" (initialRequestState "req_1")
            (DispatchError.jsError "nf")).calls
    ∧ (true = true → c9Entry.callback (routerNewState c9Entry.state c9Result)
          = Except.error "consumer boom"
        → ("req_1" : String) ≠ ""
        → (handlePoeResponse true c9Reg c9Result (some "req_1")).caught
            = ["consumer boom"]) :=
  claim9_callback_isolation true c9Reg "req_1" c9Entry sampleCb throwingCb sampleCb
    c9Result (initialRequestState "req_1") false true true (DispatchError.jsError "nf")
    "consumer boom" "hi" {} rfl

end PoeCanvasUtils
